import Mathlib

/-!
Shallow embedding of the SnapTrade bridge service
(`src/utils/snaptrade.ts`, `src/lib/rateLimiter.ts`, `src/routes/crypto.ts`,
and the shared-secret route guards) in Lean 4, together with theorems
settling the specification claims about it.

Modelling conventions:
* JavaScript values reachable by the error-handling code are modelled by the
  inductive `JSVal`.  JSON numbers are modelled as exact rationals (`ℚ`);
  JavaScript's binary floating point rounding is orthogonal to every property
  proved here.  Field absence is modelled by `Option` (`none` = the field is
  not present on the object, `some JSVal.undefined` = present with value
  `undefined`), since the TypeScript code distinguishes `"f" in e` from
  `typeof e.f`.
* Header carriers are modelled by `HeaderCarrier` with one constructor per
  supported shape (Fetch-`Headers`-like objects exposing a case-insensitive
  `get`, enumerator objects exposing `forEach`, and plain string-keyed
  records), plus a constructor for `null`/`undefined`/non-object values.
  Header values are modelled as strings (the code stringifies non-string
  values with `String(value)`, which is the identity on strings).
* `Date.now()` is impure, so the rate limiter takes the current time as an
  explicit argument; the mutable `Map` becomes an association list threaded
  through `tryAcquire`.
* Responses produced via the framework context `c` (`c.header` / `c.json`)
  are collected into a `BridgeResponse` record: the list of headers set, the
  JSON body, and the status argument passed to `c.json`.
-/

/-- A JavaScript value, as far as the bridge's error-handling code can
observe it.  Numbers are exact rationals; object fields are kept in
insertion order (for duplicate keys JavaScript keeps the last value, a case
no theorem below depends on). -/
inductive JSVal : Type
  | undefined : JSVal
  | null : JSVal
  | bool : Bool → JSVal
  | num : ℚ → JSVal
  | str : String → JSVal
  | arr : List JSVal → JSVal
  | obj : List (String × JSVal) → JSVal

/-- `typeof v === "object"` (arrays and `null` included, as in JavaScript). -/
def typeofObject : JSVal → Bool
  | .obj _ => true
  | .arr _ => true
  | .null => true
  | _ => false

/-- JavaScript truthiness of a value. -/
def jsTruthy : JSVal → Bool
  | .undefined => false
  | .null => false
  | .bool b => b
  | .num n => n ≠ 0
  | .str s => s ≠ ""
  | .arr _ => true
  | .obj _ => true

/-- Reading a possibly-absent field: an absent field reads as `undefined`. -/
def jsGet (f : Option JSVal) : JSVal := f.getD .undefined

/-- `typeof f === "number"` for a possibly-absent field. -/
def isNumField : Option JSVal → Bool
  | some (.num _) => true
  | _ => false

/-- `typeof f === "string"` for a possibly-absent field. -/
def isStrField : Option JSVal → Bool
  | some (.str _) => true
  | _ => false

/-- The payload value is a structured JSON value (object or array); this is
exactly `data && typeof data === "object"` in the source, since `null` is
falsy and no other `JSVal` has `typeof` `"object"`. -/
def isStructured (v : JSVal) : Bool := jsTruthy v && typeofObject v

/-! ## Header carriers and `readHeaderValue` (src/utils/snaptrade.ts) -/

/-- One of the header-carrier shapes accepted by `readHeaderValue`:
* `getC`: a Fetch-`Headers`-like object.  Per the Fetch specification its
  `get` method is case-insensitive, so `get(name) ?? get(lowerCaseName)`
  equals a single case-insensitive lookup; when `get` misses, the `forEach`
  fallback enumerates the same (empty-result) data and `Object.entries`
  yields no own data properties, so the lookup still misses.
* `forEachC`: an enumerator object exposing only `forEach` over internal
  entries; `Object.entries` of such an object yields no header data.
* `record`: a plain string-keyed mapping scanned via `Object.entries`.
* `nullish`: `null`, `undefined`, or a non-object value. -/
inductive HeaderCarrier : Type
  | nullish : HeaderCarrier
  | getC : List (String × String) → HeaderCarrier
  | forEachC : List (String × String) → HeaderCarrier
  | record : List (String × String) → HeaderCarrier

/-- `toLowerCase`, modelled over ASCII (header names are ASCII). -/
def lowerStr (s : String) : String := ⟨s.data.map Char.toLower⟩

/-- First entry whose key, lowercased, equals the (already lowercased)
target name; "first match wins". -/
def lookupCI (entries : List (String × String)) (lowerName : String) : Option String :=
  (entries.find? (fun p => lowerStr p.1 == lowerName)).map (·.2)

/-- `readHeaderValue(headers, headerName)` from src/utils/snaptrade.ts:286.
* non-object carrier: `undefined`;
* `get`-carrier: `get(headerName) ?? get(lowerCaseName)`, returned directly
  when it is a string (see `HeaderCarrier.getC` for why this collapses to a
  single case-insensitive lookup);
* `forEach`-carrier: enumerate entries, first case-insensitive match wins,
  but the result is only returned when truthy (`if (match)`), an empty
  string falls through to the `Object.entries` scan, which finds no data on
  an enumerator object;
* plain record: `Object.entries` scan, first case-insensitive match. -/
def readHeaderValue (headers : HeaderCarrier) (headerName : String) : Option String :=
  let lowerCaseName := lowerStr headerName
  match headers with
  | .nullish => none
  | .getC entries => lookupCI entries lowerCaseName
  | .forEachC entries =>
    match lookupCI entries lowerCaseName with
    | some m => if m = "" then none else some m
    | none => none
  | .record entries => lookupCI entries lowerCaseName

/-- `pickRateLimitHeaders` from src/utils/snaptrade.ts:217. -/
def pickRateLimitHeaders (headers : HeaderCarrier) : Option String × Option String × Option String :=
  (readHeaderValue headers "x-ratelimit-limit",
   readHeaderValue headers "x-ratelimit-remaining",
   readHeaderValue headers "x-ratelimit-reset")

/-! ## The caught error value -/

/-- The nested `response` field of an Axios-like error: either an object
carrying the fields the handler reads, or a nullish/primitive value (for
which every optional chain `error.response?.x` reads as `undefined`). -/
inductive RespField : Type
  | nullish : RespField
  | robj : Option JSVal → Option JSVal → Option HeaderCarrier → RespField

/-- The caught error object, restricted to the fields the handler and the
two shape guards read.  `none` means the field is absent (`"f" in e` is
false). -/
structure ErrObj : Type where
  message : Option JSVal
  response : Option RespField
  status : Option JSVal
  statusCode : Option JSVal
  responseBody : Option JSVal
  headers : Option HeaderCarrier

/-- A caught value: either not an object at all (both shape guards reject
it via `typeof error === "object"` short-circuiting) or an object. -/
inductive CaughtValue : Type
  | nonObject : CaughtValue
  | obj : ErrObj → CaughtValue

/-- `isAxiosLikeError` (src/utils/snaptrade.ts:232): the value is an object
with both a `message` field and a `response` field present (`in`-presence,
values unconstrained). -/
def isAxiosLikeError : CaughtValue → Bool
  | .nonObject => false
  | .obj e => e.message.isSome && e.response.isSome

/-- `isSnaptradeSdkError` (src/utils/snaptrade.ts:257): the value is an
object whose `message` is a string, with a numeric `status` or `statusCode`,
and with a `responseBody` or `headers` field present. -/
def isSnaptradeSdkError : CaughtValue → Bool
  | .nonObject => false
  | .obj e =>
    isStrField e.message && (isNumField e.status || isNumField e.statusCode) &&
      (e.responseBody.isSome || e.headers.isSome)

/-- The three classification outcomes of `handleSnaptradeError`. -/
inductive ErrShape : Type
  | shapeA : ErrShape
  | shapeB : ErrShape
  | unknown : ErrShape
deriving DecidableEq

/-- The classification order of `handleSnaptradeError`: Axios-like first,
then SDK-like, else unknown. -/
def classify (error : CaughtValue) : ErrShape :=
  if isAxiosLikeError error then .shapeA
  else if isSnaptradeSdkError error then .shapeB
  else .unknown

/-! ## A JSON parser (embedding of the `JSON.parse` calls)

The handler calls `JSON.parse` on trimmed string payloads.  We embed the
ECMA-404 grammar directly: whitespace is space/tab/LF/CR, strings support
the seven single-character escapes and `\uXXXX` (surrogate pairs are
combined; a lone surrogate, unrepresentable in a Lean `String`, becomes
U+FFFD), numbers are `-? int frac? exp?` with no leading zeros, and any
trailing non-whitespace input is a parse error.  Fuel (`input length + 1`)
bounds the recursion; every recursive call happens after consuming at least
one character, so the fuel never runs out on the inputs it is given. -/

/-- JSON insignificant whitespace (also the character set trimmed by the
model of `String.prototype.trim`; the real `trim` also removes rarer
Unicode spaces, immaterial here). -/
def jsWs (c : Char) : Bool := c = ' ' || c = '\t' || c = '\n' || c = '\r'

/-- Drop leading JSON whitespace. -/
def skipWs (cs : List Char) : List Char := cs.dropWhile jsWs

/-- Drop trailing JSON whitespace. -/
def trimRight : List Char → List Char
  | [] => []
  | c :: cs =>
    match trimRight cs with
    | [] => if jsWs c then [] else [c]
    | r => c :: r

/-- Model of `String.prototype.trim`. -/
def jsTrim (s : String) : String := ⟨trimRight (skipWs s.data)⟩

/-- Model of `String.prototype.startsWith` with a one-character prefix. -/
def jsStartsWith (s : String) (c : Char) : Bool :=
  match s.data with
  | [] => false
  | d :: _ => d = c

/-- Hexadecimal digit value. -/
def hexVal (c : Char) : Option Nat :=
  if '0' ≤ c ∧ c ≤ '9' then some (c.toNat - 48)
  else if 'a' ≤ c ∧ c ≤ 'f' then some (c.toNat - 87)
  else if 'A' ≤ c ∧ c ≤ 'F' then some (c.toNat - 55)
  else none

/-- Four hex digits. -/
def hex4 : List Char → Option (Nat × List Char)
  | a :: b :: c :: d :: rest =>
    match hexVal a, hexVal b, hexVal c, hexVal d with
    | some x, some y, some z, some w => some (((x * 16 + y) * 16 + z) * 16 + w, rest)
    | _, _, _, _ => none
  | _ => none

/-- JSON string body after the opening quote.  Returns the decoded string
and the input after the closing quote. -/
def parseJString : Nat → List Char → Option (String × List Char)
  | 0, _ => none
  | fuel + 1, cs =>
    match cs with
    | [] => none
    | '"' :: rest => some ("", rest)
    | '\\' :: esc =>
      match esc with
      | 'u' :: rest =>
        match hex4 rest with
        | some (n, rest1) =>
          if 0xD800 ≤ n ∧ n ≤ 0xDBFF then
            -- high surrogate: try to combine with a following low surrogate
            match rest1 with
            | '\\' :: 'u' :: rest2 =>
              match hex4 rest2 with
              | some (m, rest3) =>
                if 0xDC00 ≤ m ∧ m ≤ 0xDFFF then
                  (parseJString fuel rest3).map
                    (fun p => (⟨Char.ofNat (0x10000 + (n - 0xD800) * 0x400 + (m - 0xDC00)) :: p.1.data⟩, p.2))
                else
                  (parseJString fuel rest1).map (fun p => (⟨'�' :: p.1.data⟩, p.2))
              | none => (parseJString fuel rest1).map (fun p => (⟨'�' :: p.1.data⟩, p.2))
            | _ => (parseJString fuel rest1).map (fun p => (⟨'�' :: p.1.data⟩, p.2))
          else if 0xDC00 ≤ n ∧ n ≤ 0xDFFF then
            (parseJString fuel rest1).map (fun p => (⟨'�' :: p.1.data⟩, p.2))
          else
            (parseJString fuel rest1).map (fun p => (⟨Char.ofNat n :: p.1.data⟩, p.2))
        | none => none
      | e :: rest =>
        let mapped : Option Char :=
          if e = '"' then some '"'
          else if e = '\\' then some '\\'
          else if e = '/' then some '/'
          else if e = 'b' then some '\x08'
          else if e = 'f' then some '\x0c'
          else if e = 'n' then some '\n'
          else if e = 'r' then some '\r'
          else if e = 't' then some '\t'
          else none
        match mapped with
        | some c => (parseJString fuel rest).map (fun p => (⟨c :: p.1.data⟩, p.2))
        | none => none
      | [] => none
    | c :: rest =>
      if c.toNat < 0x20 then none
      else (parseJString fuel rest).map (fun p => (⟨c :: p.1.data⟩, p.2))

/-- Digits of a decimal literal, most significant first. -/
def digitsToNat (ds : List Char) : Nat :=
  ds.foldl (fun a c => a * 10 + (c.toNat - 48)) 0

/-- Ten to an integer power, as an exact rational. -/
def pow10 (z : ℤ) : ℚ :=
  if 0 ≤ z then (10 : ℚ) ^ z.toNat else 1 / (10 : ℚ) ^ (-z).toNat

/-- JSON number literal: `-? int frac? exp?`, no leading zeros, at least one
digit in each part.  Returns the exact rational value. -/
def parseNumber (cs : List Char) : Option (ℚ × List Char) :=
  let (neg, cs1) := match cs with
    | '-' :: r => (true, r)
    | _ => (false, cs)
  let ids := cs1.takeWhile Char.isDigit
  let cs2 := cs1.dropWhile Char.isDigit
  if ids = [] then none
  else if 1 < ids.length ∧ ids.head? = some '0' then none
  else
    let fracPart : Option (List Char × List Char) :=
      match cs2 with
      | '.' :: r =>
        let fds := r.takeWhile Char.isDigit
        if fds = [] then none else some (fds, r.dropWhile Char.isDigit)
      | _ => some ([], cs2)
    match fracPart with
    | none => none
    | some (fds, cs3) =>
      let expPart : Option (ℤ × List Char) :=
        match cs3 with
        | e :: r =>
          if e = 'e' ∨ e = 'E' then
            let (esign, r1) := match r with
              | '+' :: r2 => ((1 : ℤ), r2)
              | '-' :: r2 => ((-1 : ℤ), r2)
              | _ => ((1 : ℤ), r)
            let eds := r1.takeWhile Char.isDigit
            if eds = [] then none
            else some (esign * (digitsToNat eds : ℤ), r1.dropWhile Char.isDigit)
          else some (0, cs3)
        | [] => some (0, cs3)
      match expPart with
      | none => none
      | some (ex, cs4) =>
        -- value = digits(int ++ frac) · 10^(exp − |frac|); the first branch
        -- is the same quantity when the scale factor is 10^0 = 1, written
        -- without a multiplication (a plain integer literal).
        let mant : ℚ :=
          if fds = [] ∧ ex = 0 then (digitsToNat ids : ℚ)
          else (digitsToNat (ids ++ fds) : ℚ) * pow10 (ex - fds.length)
        some (if neg then -mant else mant, cs4)

mutual

/-- JSON value, dispatching on the first character.  The input is expected
to start at the value itself (callers skip whitespace first). -/
def parseVal : Nat → List Char → Option (JSVal × List Char)
  | 0, _ => none
  | fuel + 1, cs =>
    match cs with
    | [] => none
    | c :: rest =>
      if c = '\x7b' then
        let cs1 := skipWs rest
        if cs1.head? = some '\x7d' then some (.obj [], cs1.tail)
        else (parseMembers fuel cs1).map (fun p => (.obj p.1, p.2))
      else if c = '[' then
        let cs1 := skipWs rest
        if cs1.head? = some ']' then some (.arr [], cs1.tail)
        else (parseElems fuel cs1).map (fun p => (.arr p.1, p.2))
      else if c = '"' then
        (parseJString (rest.length + 1) rest).map (fun p => (.str p.1, p.2))
      else if c = 't' then
        if rest.take 3 = ['r', 'u', 'e'] then some (.bool true, rest.drop 3) else none
      else if c = 'f' then
        if rest.take 4 = ['a', 'l', 's', 'e'] then some (.bool false, rest.drop 4) else none
      else if c = 'n' then
        if rest.take 3 = ['u', 'l', 'l'] then some (.null, rest.drop 3) else none
      else if c = '-' ∨ c.isDigit then
        (parseNumber cs).map (fun p => (.num p.1, p.2))
      else none

/-- Object members, starting at the first key (whitespace already
skipped); consumes up to and including the closing brace. -/
def parseMembers : Nat → List Char → Option (List (String × JSVal) × List Char)
  | 0, _ => none
  | fuel + 1, cs =>
    match cs with
    | '"' :: rest =>
      match parseJString (rest.length + 1) rest with
      | some (k, r1) =>
        match skipWs r1 with
        | ':' :: r2 =>
          match parseVal fuel (skipWs r2) with
          | some (v, r3) =>
            match skipWs r3 with
            | ',' :: r4 =>
              match parseMembers fuel (skipWs r4) with
              | some (ms, r5) => some ((k, v) :: ms, r5)
              | none => none
            | '\x7d' :: r4 => some ([(k, v)], r4)
            | _ => none
          | none => none
        | _ => none
      | none => none
    | _ => none

/-- Array elements, starting at the first element (whitespace already
skipped); consumes up to and including the closing bracket. -/
def parseElems : Nat → List Char → Option (List JSVal × List Char)
  | 0, _ => none
  | fuel + 1, cs =>
    match parseVal fuel cs with
    | some (v, r1) =>
      match skipWs r1 with
      | ',' :: r2 =>
        match parseElems fuel (skipWs r2) with
        | some (vs, r3) => some (v :: vs, r3)
        | none => none
      | ']' :: r2 => some ([v], r2)
      | _ => none
    | none => none

end

/-- `JSON.parse`: parse one value surrounded only by whitespace; any other
trailing input is an error (`none` models the thrown `SyntaxError`). -/
def jsonParse (s : String) : Option JSVal :=
  match parseVal (s.length + 1) (skipWs s.data) with
  | some (v, rest) => if skipWs rest = [] then some v else none
  | none => none

/-! ## `handleSnaptradeError` (src/utils/snaptrade.ts:44) -/

/-- The response assembled through the framework context: the headers set
via `c.header` (in call order), and the body and status passed to
`c.json(body, status)`.  The status is a `JSVal` because the Axios branch
passes `error.response?.status ?? 502` through without a type check. -/
structure BridgeResponse : Type where
  headersSet : List (String × String)
  body : JSVal
  status : JSVal

/-- The nested response object of `error.response`, when it is one. -/
def axiosRespObj (e : ErrObj) : Option RespField :=
  e.response

/-- `error.response?.status` as a raw field (`none` when `response` is
absent, nullish, or has no `status` field). -/
def axiosStatusField (e : ErrObj) : Option JSVal :=
  match e.response with
  | some (.robj st _ _) => st
  | _ => none

/-- `error.response?.data`, read as a value (absent ⇒ `undefined`). -/
def axiosDataVal (e : ErrObj) : JSVal :=
  match e.response with
  | some (.robj _ d _) => jsGet d
  | _ => .undefined

/-- `error.response?.headers`, as a header carrier (absent ⇒ nullish). -/
def axiosHeadersC (e : ErrObj) : HeaderCarrier :=
  match e.response with
  | some (.robj _ _ h) => h.getD .nullish
  | _ => .nullish

/-- `error.response?.status ?? 502`: the `??` replaces only `undefined` and
`null`; any other value (including `0` or a non-number) passes through. -/
def axiosStatusVal (e : ErrObj) : JSVal :=
  match axiosStatusField e with
  | none => .num 502
  | some .undefined => .num 502
  | some .null => .num 502
  | some v => v

/-- A positive numeric field, as used by the SDK branch's status pick
(`typeof f === "number" && f > 0 ? f : undefined`). -/
def posNumField : Option JSVal → Option ℚ
  | some (.num n) => if 0 < n then some n else none
  | _ => none

/-- The upstream status an SDK-shaped failure discoverably carries: a
positive numeric `statusCode`, else a positive numeric `status`. -/
def sdkUpstreamStatus (e : ErrObj) : Option ℚ :=
  (posNumField e.statusCode).orElse (fun _ => posNumField e.status)

/-- The SDK branch's status (src/utils/snaptrade.ts:144): prefer a positive
numeric `statusCode`, then a positive numeric `status`, then 502. -/
def sdkStatus (e : ErrObj) : ℚ :=
  (sdkUpstreamStatus e).getD 502

/-- The SDK branch's headers field, as a carrier (absent ⇒ nullish). -/
def sdkHeadersC (e : ErrObj) : HeaderCarrier :=
  e.headers.getD .nullish

/-- `{ code: "SNAPTRADE_ERROR", detail: d }`. -/
def snaptradeFallback (d : JSVal) : JSVal :=
  .obj [("code", .str "SNAPTRADE_ERROR"), ("detail", d)]

/-- The string-payload logic, identical in both branches
(src/utils/snaptrade.ts:112 and :177): trim; when the trimmed string starts
with a brace or bracket, try `JSON.parse`; a truthy object result is the
body; otherwise (including parse failure) fall back to
`{ code: "SNAPTRADE_ERROR", detail: <the original string> }`. -/
def stringBody (s : String) : JSVal :=
  let trimmed := jsTrim s
  if jsStartsWith trimmed '\x7b' || jsStartsWith trimmed '[' then
    match jsonParse trimmed with
    | some parsed =>
      if jsTruthy parsed && typeofObject parsed then parsed
      else snaptradeFallback (.str s)
    | none => snaptradeFallback (.str s)
  else snaptradeFallback (.str s)

/-- The body selection shared verbatim by both branches: a truthy object
payload is returned unwrapped; a string payload goes through `stringBody`;
anything else falls back to `{ code, detail: error.message }`. -/
def payloadBody (data message : JSVal) : JSVal :=
  if jsTruthy data && typeofObject data then data
  else
    match data with
    | .str s => stringBody s
    | _ => snaptradeFallback message

/-- `[(name, v)]` when `v` is a truthy (non-empty) string, else nothing —
the `if (x) c.header(name, x)` pattern. -/
def headerIf (name : String) (v : Option String) : List (String × String) :=
  match v with
  | some s => if s = "" then [] else [(name, s)]
  | none => []

/-- The header-propagation sequence shared verbatim by both branches:
request id under both names when truthy, the three rate-limit headers, and
`Retry-After`, each only when truthy. -/
def metadataHeaders (hdrs : HeaderCarrier) : List (String × String) :=
  let requestId := readHeaderValue hdrs "x-request-id"
  let ridHeaders :=
    match requestId with
    | some v => if v = "" then [] else [("X-SnapTrade-Request-ID", v), ("X-Request-ID", v)]
    | none => []
  let rl := pickRateLimitHeaders hdrs
  ridHeaders ++
    headerIf "X-SnapTrade-RateLimit-Limit" rl.1 ++
    headerIf "X-SnapTrade-RateLimit-Remaining" rl.2.1 ++
    headerIf "X-SnapTrade-RateLimit-Reset" rl.2.2 ++
    headerIf "Retry-After" (readHeaderValue hdrs "retry-after")

/-- Lookup in the list of response headers set through `c.header` (first
occurrence; the handler never sets the same name twice). -/
def hdrLookup : List (String × String) → String → Option String
  | [], _ => none
  | (k, v) :: rest, name => if k = name then some v else hdrLookup rest name

/-- The synthetic 500 of the unknown-shape path
(src/utils/snaptrade.ts:197): no headers, a fixed generic body. -/
def internalErrorResponse : BridgeResponse :=
  ⟨[], .obj [("error", .str "internal_error"),
             ("message", .str "Failed to process SnapTrade request")], .num 500⟩

/-- The Axios-like branch (src/utils/snaptrade.ts:79). -/
def axiosBranch (e : ErrObj) : BridgeResponse :=
  ⟨metadataHeaders (axiosHeadersC e),
   payloadBody (axiosDataVal e) (jsGet e.message),
   axiosStatusVal e⟩

/-- The SDK branch (src/utils/snaptrade.ts:142). -/
def sdkBranch (e : ErrObj) : BridgeResponse :=
  ⟨metadataHeaders (sdkHeadersC e),
   payloadBody (jsGet e.responseBody) (jsGet e.message),
   .num (sdkStatus e)⟩

/-- `handleSnaptradeError(c, error)`: Axios-like shape first, then SDK
shape, otherwise the synthetic 500. -/
def handleSnaptradeError (error : CaughtValue) : BridgeResponse :=
  if isAxiosLikeError error then
    match error with
    | .obj e => axiosBranch e
    | .nonObject => internalErrorResponse
  else if isSnaptradeSdkError error then
    match error with
    | .obj e => sdkBranch e
    | .nonObject => internalErrorResponse
  else internalErrorResponse

/-! ## `PerKeyRateLimiter` (src/lib/rateLimiter.ts) -/

/-- Result of an admission attempt. -/
inductive AcquireResult : Type
  | allowed : AcquireResult
  | denied : ℤ → AcquireResult
deriving DecidableEq

/-- The limiter: the configured minimum interval and the `lastExecution`
map (a key → timestamp association list standing in for the JS `Map`). -/
structure PerKeyRateLimiter : Type where
  minIntervalMs : ℤ
  lastExecution : List (String × ℤ)

/-- `Map.get`. -/
def mapGet : List (String × ℤ) → String → Option ℤ
  | [], _ => none
  | (k, v) :: rest, key => if k = key then some v else mapGet rest key

/-- `Map.set`: replace the entry in place, or append a new one. -/
def mapSet : List (String × ℤ) → String → ℤ → List (String × ℤ)
  | [], key, v => [(key, v)]
  | (k, w) :: rest, key, v =>
    if k = key then (key, v) :: rest else (k, w) :: mapSet rest key v

/-- `tryAcquire(key)` with `now = Date.now()` passed explicitly: allow and
record `now` when the key is unseen or the interval has elapsed, otherwise
deny with `retryAfterMs = minIntervalMs - (now - last)` and leave the map
unchanged. -/
def tryAcquire (rl : PerKeyRateLimiter) (key : String) (now : ℤ) :
    AcquireResult × PerKeyRateLimiter :=
  match mapGet rl.lastExecution key with
  | none => (.allowed, ⟨rl.minIntervalMs, mapSet rl.lastExecution key now⟩)
  | some last =>
    if rl.minIntervalMs ≤ now - last then
      (.allowed, ⟨rl.minIntervalMs, mapSet rl.lastExecution key now⟩)
    else
      (.denied (rl.minIntervalMs - (now - last)), rl)

/-! ## The order-placement admission gate (src/routes/crypto.ts:99) -/

/-- The interval configured for `tradingLimiter` (`new
PerKeyRateLimiter(1_000)`). -/
def tradingLimiterIntervalMs : ℤ := 1000

/-- The 429 response of the denied path: status, the `Retry-After` header
value, and the JSON body. -/
structure RateLimitedResponse : Type where
  status : ℤ
  retryAfterHeader : String
  body : JSVal

/-- `Math.max(1, Math.ceil(retryAfterMs / 1000))` (the ceiling of the exact
rational quotient, which is what `Math.ceil` computes on these integer
ranges). -/
def retryAfterSeconds (retryAfterMs : ℤ) : ℤ :=
  max 1 ⌈(retryAfterMs : ℚ) / 1000⌉

/-- The `/crypto/place` admission gate: run the limiter on
`accountId:userId`; on denial produce the 429 response with the
`Retry-After` header in whole seconds and the documented body; on allowance
pass through (`none`) to the upstream call. -/
def placeCryptoAdmission (rl : PerKeyRateLimiter) (key : String) (now : ℤ) :
    Option RateLimitedResponse × PerKeyRateLimiter :=
  match tryAcquire rl key now with
  | (.allowed, rl1) => (none, rl1)
  | (.denied retryAfterMs, rl1) =>
    (some ⟨429, toString (retryAfterSeconds retryAfterMs),
           .obj [("error", .str "rate_limited"),
                 ("message", .str "Crypto order placement is limited to one request per second per account."),
                 ("retryAfterMs", .num (retryAfterMs : ℚ))]⟩,
     rl1)

/-! ## Shared-secret guard (src/unnamed/part_003:14, part_004:20) -/

/-- Outcome of the `/equity/*` and `/orders/*` middleware: pass the request on
to the route (`next()`), or reply immediately. -/
inductive GuardOutcome : Type
  | next : GuardOutcome
  | deny : ℤ → JSVal → GuardOutcome

/-- The 401 body of the guard. -/
def unauthorizedBody : JSVal :=
  .obj [("error", .str "unauthorized"),
        ("message", .str "Missing or invalid shared secret.")]

/-- The shared-secret middleware, identical in the equity and orders route
registrations: with no configured secret (absent or empty, `if (!secret)`)
every request passes; otherwise the `X-Coinage-TS-Secret` header must be
present and strictly equal (`provided !== secret`) or the request is
rejected with 401. -/
def sharedSecretGuard (secret : Option String) (provided : Option String) : GuardOutcome :=
  match secret with
  | none => .next
  | some s =>
    if s = "" then .next
    else if provided ≠ some s then .deny 401 unauthorizedBody
    else .next

/-! ## Helper lemmas -/

/-- The handler takes the Axios branch exactly on `shapeA`. -/
theorem handle_shapeA (e : ErrObj) (h : isAxiosLikeError (.obj e) = true) :
    handleSnaptradeError (.obj e) = axiosBranch e := by
  simp [handleSnaptradeError, h]

/-- The handler takes the SDK branch exactly on `shapeB`. -/
theorem handle_shapeB (e : ErrObj) (h1 : isAxiosLikeError (.obj e) = false)
    (h2 : isSnaptradeSdkError (.obj e) = true) :
    handleSnaptradeError (.obj e) = sdkBranch e := by
  simp [handleSnaptradeError, h1, h2]

/-- The handler falls through to the synthetic 500 otherwise. -/
theorem handle_unknown (error : CaughtValue) (h1 : isAxiosLikeError error = false)
    (h2 : isSnaptradeSdkError error = false) :
    handleSnaptradeError error = internalErrorResponse := by
  cases error with
  | nonObject => simp [handleSnaptradeError, isAxiosLikeError, isSnaptradeSdkError]
  | obj e => simp [handleSnaptradeError, h1, h2]

/-- `classify` unfolded to the two guards. -/
theorem classify_shapeA_iff (error : CaughtValue) :
    classify error = .shapeA ↔ isAxiosLikeError error = true := by
  unfold classify
  split_ifs with hA hB <;> simp_all

/-- `classify` reaches `shapeB` exactly when the SDK guard holds and the
Axios guard does not. -/
theorem classify_shapeB_iff (error : CaughtValue) :
    classify error = .shapeB ↔
      isAxiosLikeError error = false ∧ isSnaptradeSdkError error = true := by
  unfold classify
  split_ifs with hA hB <;> simp_all

/-- `classify` reaches `unknown` exactly when both guards fail. -/
theorem classify_unknown_iff (error : CaughtValue) :
    classify error = .unknown ↔
      isAxiosLikeError error = false ∧ isSnaptradeSdkError error = false := by
  unfold classify
  split_ifs with hA hB <;> simp_all

/-- A map updated at a key reads back the new value at that key. -/
theorem mapGet_mapSet_self (m : List (String × ℤ)) (k : String) (v : ℤ) :
    mapGet (mapSet m k v) k = some v := by
  induction m with
  | nil => simp [mapSet, mapGet]
  | cons p rest ih =>
    obtain ⟨a, b⟩ := p
    by_cases h : a = k
    · simp [mapSet, mapGet, h]
    · simp [mapSet, mapGet, h, ih]

/-- A denied result always carries a positive retry hint. -/
theorem tryAcquire_denied_pos (rl : PerKeyRateLimiter) (key : String) (now : ℤ)
    (r : ℤ) (h : (tryAcquire rl key now).1 = .denied r) : 0 < r := by
  unfold tryAcquire at h
  rcases hm : mapGet rl.lastExecution key with _ | last
  · rw [hm] at h; simp at h
  · rw [hm] at h
    by_cases hle : rl.minIntervalMs ≤ now - last
    · simp [hle] at h
    · simp [hle] at h
      omega

/-! ## C5: the unknown-shape path -/

/-- C5: a caught failure matching neither recognised shape produces exactly
the synthetic HTTP 500 with the fixed generic body and no headers; the
response is a constant, so nothing from the failure's payload occurs in it,
and this is the only path whose body ignores the failure (the other two
return `axiosBranch`/`sdkBranch`, whose bodies are built from the failure's
payload fields). -/
theorem c5_unknown_masked (error : CaughtValue)
    (h : classify error = .unknown) :
    handleSnaptradeError error =
      ⟨[], .obj [("error", .str "internal_error"),
                 ("message", .str "Failed to process SnapTrade request")], .num 500⟩ := by
  obtain ⟨h1, h2⟩ := (classify_unknown_iff error).mp h
  exact handle_unknown error h1 h2

/-- Witness: a plain `new Error("boom")`-like object (message only, none of
the shape fields) is classified unknown and receives the synthetic 500. -/
theorem c5_unknown_masked_witness :
    classify (.obj ⟨some (.str "boom"), none, none, none, none, none⟩) = .unknown ∧
    handleSnaptradeError (.obj ⟨some (.str "boom"), none, none, none, none, none⟩) =
      ⟨[], .obj [("error", .str "internal_error"),
                 ("message", .str "Failed to process SnapTrade request")], .num 500⟩ :=
  ⟨rfl, c5_unknown_masked _ rfl⟩

/-! ## C8: the per-key admission limiter -/

/-- C8: `tryAcquire` allows exactly when the key is unseen or the elapsed
time has reached the minimum interval, in which case the current timestamp
is recorded for the key; otherwise it denies with
`retryAfterMs = minIntervalMs − elapsed` and returns the state unchanged. -/
theorem c8_tryAcquire_spec (rl : PerKeyRateLimiter) (key : String) (now : ℤ) :
    ((tryAcquire rl key now).1 = .allowed ↔
      mapGet rl.lastExecution key = none ∨
        ∃ last, mapGet rl.lastExecution key = some last ∧ rl.minIntervalMs ≤ now - last)
    ∧ ((tryAcquire rl key now).1 = .allowed →
        (tryAcquire rl key now).2 = ⟨rl.minIntervalMs, mapSet rl.lastExecution key now⟩ ∧
        mapGet (tryAcquire rl key now).2.lastExecution key = some now)
    ∧ (∀ last, mapGet rl.lastExecution key = some last → now - last < rl.minIntervalMs →
        tryAcquire rl key now = (.denied (rl.minIntervalMs - (now - last)), rl)) := by
  rcases hm : mapGet rl.lastExecution key with _ | last
  · refine ⟨by simp [tryAcquire, hm], ?_, ?_⟩
    · intro _
      exact ⟨by simp [tryAcquire, hm], by simp [tryAcquire, hm, mapGet_mapSet_self]⟩
    · intro l hl hlt
      exact Option.noConfusion hl
  · by_cases hle : rl.minIntervalMs ≤ now - last
    · refine ⟨?_, ?_, ?_⟩
      · simp only [tryAcquire, hm, hle, if_true]
        exact ⟨fun _ => Or.inr ⟨last, rfl, hle⟩, fun _ => by trivial⟩
      · intro _
        exact ⟨by simp [tryAcquire, hm, hle], by simp [tryAcquire, hm, hle, mapGet_mapSet_self]⟩
      · intro l hl hlt
        cases hl
        omega
    · refine ⟨?_, ?_, ?_⟩
      · constructor
        · intro hco
          simp [tryAcquire, hm, hle] at hco
        · rintro (hco | ⟨l, hl, hmin⟩)
          · exact Option.noConfusion hco
          · cases hl
            omega
      · intro hco
        simp [tryAcquire, hm, hle] at hco
      · intro l hl hlt
        cases hl
        simp [tryAcquire, hm, hle]

/-- Witness: with a 1000 ms interval and a grant recorded at t=5, a retry at
t=400 is denied with `retryAfterMs = 1000 − 395 = 605` and the map kept. -/
theorem c8_tryAcquire_spec_witness :
    tryAcquire ⟨1000, [("k", 5)]⟩ "k" 400 = (.denied 605, ⟨1000, [("k", 5)]⟩) :=
  (c8_tryAcquire_spec ⟨1000, [("k", 5)]⟩ "k" 400).2.2 5 (by decide) (by decide)

/-! ## C9: the 429 path of `/crypto/place` -/

/-- C9: every placement request the limiter denies receives HTTP 429, the
exact body `{ error: "rate_limited", message, retryAfterMs }`, and a
`Retry-After` header equal to `retryAfterMs` converted to whole seconds
rounded up; the denied hint is always positive, so the rounded value is at
least 1 (and the `Math.max(1, ·)` clamp never changes it). -/
theorem c9_rate_limited_response (rl : PerKeyRateLimiter) (key : String) (now : ℤ)
    (r : ℤ) (h : tryAcquire rl key now = (.denied r, rl)) :
    (placeCryptoAdmission rl key now).1 =
      some ⟨429, toString (retryAfterSeconds r),
            .obj [("error", .str "rate_limited"),
                  ("message", .str "Crypto order placement is limited to one request per second per account."),
                  ("retryAfterMs", .num (r : ℚ))]⟩
    ∧ 0 < r
    ∧ retryAfterSeconds r = ⌈(r : ℚ) / 1000⌉
    ∧ 1 ≤ retryAfterSeconds r := by
  have hr : 0 < r := tryAcquire_denied_pos rl key now r (by rw [h])
  have hq : (0 : ℚ) < (r : ℚ) / 1000 := by
    apply div_pos
    · exact_mod_cast hr
    · norm_num
  have hceil : 1 ≤ ⌈(r : ℚ) / 1000⌉ := Int.ceil_pos.mpr hq
  refine ⟨?_, hr, ?_, ?_⟩
  · simp [placeCryptoAdmission, h]
  · exact max_eq_right hceil
  · rw [retryAfterSeconds]
    exact le_max_left 1 _

/-- Witness: the t=5/t=400 denial from the limiter witness yields the 429
response with `retryAfterMs = 605` and its rounded-up `Retry-After`. -/
theorem c9_rate_limited_response_witness :
    (placeCryptoAdmission ⟨1000, [("acct:user", 5)]⟩ "acct:user" 400).1 =
      some ⟨429, toString (retryAfterSeconds 605),
            .obj [("error", .str "rate_limited"),
                  ("message", .str "Crypto order placement is limited to one request per second per account."),
                  ("retryAfterMs", .num (605 : ℚ))]⟩
    ∧ 0 < (605 : ℤ)
    ∧ retryAfterSeconds 605 = ⌈((605 : ℤ) : ℚ) / 1000⌉
    ∧ 1 ≤ retryAfterSeconds 605 :=
  c9_rate_limited_response ⟨1000, [("acct:user", 5)]⟩ "acct:user" 400 605 rfl

/-! ## C10: the shared-secret guard on `/equity/*` and `/orders/*` -/

/-- C10: with a non-empty configured secret, a missing or mismatched
`X-Coinage-TS-Secret` header is rejected with HTTP 401 and the
`{ error: "unauthorized", message }` body before the route handler runs;
with the secret unset or empty the guard passes every request through, and
a matching header also passes. -/
theorem c10_shared_secret_guard (secret provided : Option String) :
    (∀ s, secret = some s → s ≠ "" → provided ≠ some s →
      sharedSecretGuard secret provided = .deny 401 unauthorizedBody)
    ∧ (secret = none ∨ secret = some "" → sharedSecretGuard secret provided = .next)
    ∧ (∀ s, secret = some s → s ≠ "" → provided = some s →
      sharedSecretGuard secret provided = .next) := by
  refine ⟨?_, ?_, ?_⟩
  · intro s hs hne hmis
    subst hs
    simp [sharedSecretGuard, hne, hmis]
  · rintro (hs | hs) <;> subst hs <;> simp [sharedSecretGuard]
  · intro s hs hne hmatch
    subst hs
    simp [sharedSecretGuard, hne, hmatch]

/-- Witness: secret "s3cret" with a missing header is denied; the same
secret with a matching header passes; an unset secret passes a header-less
request. -/
theorem c10_shared_secret_guard_witness :
    sharedSecretGuard (some "s3cret") none = .deny 401 unauthorizedBody
    ∧ sharedSecretGuard (some "s3cret") (some "s3cret") = .next
    ∧ sharedSecretGuard none none = .next :=
  ⟨(c10_shared_secret_guard (some "s3cret") none).1 "s3cret" rfl (by decide) (by decide),
   (c10_shared_secret_guard (some "s3cret") (some "s3cret")).2.2 "s3cret" rfl (by decide) rfl,
   (c10_shared_secret_guard none none).2.1 (Or.inl rfl)⟩

/-! ## C2: the classification rule -/

/-- C2 counterexample: an object carrying a full nested response-like field
(status 400, object payload) but no `message` field.  The claim's rule
("Shape A exactly when a nested response-like field is present") classifies
it as Shape A, but `isAxiosLikeError` also requires a `message` field, so
the code classifies it as unknown. -/
theorem c2_counterexample :
    (ErrObj.mk none
        (some (.robj (some (.num 400)) (some (.obj [("code", .str "1")])) none))
        none none none none).response.isSome = true
    ∧ classify (.obj (ErrObj.mk none
        (some (.robj (some (.num 400)) (some (.obj [("code", .str "1")])) none))
        none none none none)) = .unknown :=
  ⟨rfl, rfl⟩

/-- C2 (amended): classification tests Shape A first, then Shape B, then
unknown — but each guard also constrains `message`: Shape A holds exactly
when the caught value is an object with both a `message` field and a
`response` field present; Shape B exactly when it is an object that fails
the Shape-A test, whose `message` is a string, with a numeric `status` or
`statusCode`, and with a `responseBody` or `headers` field present; unknown
otherwise (including every non-object). -/
theorem c2_classification_amended (error : CaughtValue) :
    (classify error = .shapeA ↔
      ∃ e, error = .obj e ∧ e.message.isSome = true ∧ e.response.isSome = true)
    ∧ (classify error = .shapeB ↔
      ∃ e, error = .obj e ∧ ¬(e.message.isSome = true ∧ e.response.isSome = true) ∧
        isStrField e.message = true ∧
        (isNumField e.status = true ∨ isNumField e.statusCode = true) ∧
        (e.responseBody.isSome = true ∨ e.headers.isSome = true))
    ∧ (classify error = .unknown ↔
      ∀ e, error = .obj e →
        ¬(e.message.isSome = true ∧ e.response.isSome = true) ∧
        ¬(isStrField e.message = true ∧
          (isNumField e.status = true ∨ isNumField e.statusCode = true) ∧
          (e.responseBody.isSome = true ∨ e.headers.isSome = true))) := by
  cases error with
  | nonObject =>
    refine ⟨?_, ?_, ?_⟩ <;>
      simp [classify, isAxiosLikeError, isSnaptradeSdkError]
  | obj e =>
    refine ⟨?_, ?_, ?_⟩
    · rw [classify_shapeA_iff]
      simp [isAxiosLikeError]
    · rw [classify_shapeB_iff]
      simp only [isAxiosLikeError, isSnaptradeSdkError, Bool.and_eq_true, Bool.or_eq_true,
        CaughtValue.obj.injEq, exists_eq_left']
      constructor
      · rintro ⟨hA, ⟨hm, hnum⟩, hbh⟩
        exact ⟨by simpa using hA, hm, hnum, hbh⟩
      · rintro ⟨hA, hm, hnum, hbh⟩
        exact ⟨by simpa using hA, ⟨hm, hnum⟩, hbh⟩
    · rw [classify_unknown_iff]
      simp only [isAxiosLikeError, isSnaptradeSdkError, Bool.and_eq_true, Bool.or_eq_true,
        CaughtValue.obj.injEq, forall_eq']
      constructor
      · rintro ⟨hA, hB⟩
        exact ⟨by simpa using hA, by simpa using hB⟩
      · rintro ⟨hA, hB⟩
        constructor
        · simpa using hA
        · simpa using hB

/-! ## C3: status-code selection -/

/-- C3 counterexample: a Shape A failure whose nested status is `0`.  The
claim requires the 502 default "whenever that field is absent or
non-positive", but the Axios branch computes `error.response?.status ?? 502`,
so the non-positive `0` passes through to the response unchanged. -/
theorem c3_counterexample :
    classify (.obj ⟨some (.str "m"),
        some (.robj (some (.num 0)) (some (.obj [("a", .num 1)])) none),
        none, none, none, none⟩) = .shapeA
    ∧ (handleSnaptradeError (.obj ⟨some (.str "m"),
        some (.robj (some (.num 0)) (some (.obj [("a", .num 1)])) none),
        none, none, none, none⟩)).status = .num 0
    ∧ JSVal.num 0 ≠ JSVal.num 502 :=
  ⟨rfl, rfl, by simp only [ne_eq, JSVal.num.injEq]; decide⟩

/-- C3 (amended): for Shape B the response status is `statusCode` when it
is a positive number, else `status` when it is a positive number, else 502
— exactly as claimed.  For Shape A the 502 default applies only when the
nested status field is absent or nullish; any other value, including a
non-positive number, is passed through unchanged. -/
theorem c3_status_amended (e : ErrObj) :
    (classify (.obj e) = .shapeA →
      (handleSnaptradeError (.obj e)).status = axiosStatusVal e ∧
      ((axiosStatusField e = none ∨ axiosStatusField e = some .undefined ∨
          axiosStatusField e = some .null) → axiosStatusVal e = .num 502) ∧
      (∀ v, axiosStatusField e = some v → v ≠ .undefined → v ≠ .null →
        axiosStatusVal e = v))
    ∧ (classify (.obj e) = .shapeB →
      (handleSnaptradeError (.obj e)).status = .num (sdkStatus e) ∧
      (∀ s, posNumField e.statusCode = some s → sdkStatus e = s) ∧
      (posNumField e.statusCode = none →
        ∀ s, posNumField e.status = some s → sdkStatus e = s) ∧
      (posNumField e.statusCode = none → posNumField e.status = none →
        sdkStatus e = 502)) := by
  constructor
  · intro hA
    have hguard := (classify_shapeA_iff (.obj e)).mp hA
    refine ⟨by rw [handle_shapeA e hguard]; rfl, ?_, ?_⟩
    · rintro (hf | hf | hf) <;> simp [axiosStatusVal, hf]
    · intro v hf hu hn
      cases v <;> simp [axiosStatusVal, hf] <;> simp_all
  · intro hB
    obtain ⟨h1, h2⟩ := (classify_shapeB_iff (.obj e)).mp hB
    refine ⟨by rw [handle_shapeB e h1 h2]; rfl, ?_, ?_, ?_⟩
    · intro s hs
      simp [sdkStatus, sdkUpstreamStatus, hs, Option.orElse]
    · intro hnone s hs
      simp [sdkStatus, sdkUpstreamStatus, hnone, hs, Option.orElse]
    · intro hc hs
      simp [sdkStatus, sdkUpstreamStatus, hc, hs, Option.orElse]

/-- Witness: a Shape B failure with `statusCode = 0` (non-positive) and
`status = 400` responds with 400, and the selection equalities instantiate
at it. -/
theorem c3_status_amended_witness :
    classify (.obj ⟨some (.str "m"), none, some (.num 400), some (.num 0),
        some (.obj [("code", .str "1")]), none⟩) = .shapeB
    ∧ ((handleSnaptradeError (.obj ⟨some (.str "m"), none, some (.num 400), some (.num 0),
        some (.obj [("code", .str "1")]), none⟩)).status =
        .num (sdkStatus ⟨some (.str "m"), none, some (.num 400), some (.num 0),
          some (.obj [("code", .str "1")]), none⟩) ∧
      (∀ s, posNumField (some (JSVal.num 0)) = some s →
        sdkStatus ⟨some (.str "m"), none, some (.num 400), some (.num 0),
          some (.obj [("code", .str "1")]), none⟩ = s) ∧
      (posNumField (some (JSVal.num 0)) = none →
        ∀ s, posNumField (some (JSVal.num 400)) = some s →
          sdkStatus ⟨some (.str "m"), none, some (.num 400), some (.num 0),
            some (.obj [("code", .str "1")]), none⟩ = s) ∧
      (posNumField (some (JSVal.num 0)) = none →
        posNumField (some (JSVal.num 400)) = none →
        sdkStatus ⟨some (.str "m"), none, some (.num 400), some (.num 0),
          some (.obj [("code", .str "1")]), none⟩ = 502)) :=
  ⟨rfl, (c3_status_amended ⟨some (.str "m"), none, some (.num 400), some (.num 0),
      some (.obj [("code", .str "1")]), none⟩).2 rfl⟩

/-! ## C1: structured payloads pass through unmodified -/

/-- C1: for a Shape A failure whose nested status field is the number `s`
and whose nested payload field is a structured (object/array) value `p`,
and for a Shape B failure whose discoverable status is `s` and whose
`responseBody` is structured `p`, the handler responds with exactly status
`s` and body `p` — the identical value, so no key is added or removed and
no envelope is introduced. -/
theorem c1_preserved_payload_and_status (e : ErrObj) (s : ℚ) (p : JSVal)
    (hp : isStructured p = true)
    (h : (classify (.obj e) = .shapeA ∧ axiosStatusField e = some (.num s) ∧
            axiosDataVal e = p)
       ∨ (classify (.obj e) = .shapeB ∧ sdkUpstreamStatus e = some s ∧
            jsGet e.responseBody = p)) :
    (handleSnaptradeError (.obj e)).body = p ∧
    (handleSnaptradeError (.obj e)).status = .num s := by
  rcases h with ⟨hc, hs, hd⟩ | ⟨hc, hs, hd⟩
  · rw [handle_shapeA e ((classify_shapeA_iff (.obj e)).mp hc)]
    constructor
    · show payloadBody (axiosDataVal e) (jsGet e.message) = p
      rw [hd]
      unfold payloadBody
      rw [show (jsTruthy p && typeofObject p) = true from hp]
      simp
    · show axiosStatusVal e = .num s
      simp [axiosStatusVal, hs]
  · obtain ⟨h1, h2⟩ := (classify_shapeB_iff (.obj e)).mp hc
    rw [handle_shapeB e h1 h2]
    constructor
    · show payloadBody (jsGet e.responseBody) (jsGet e.message) = p
      rw [hd]
      unfold payloadBody
      rw [show (jsTruthy p && typeofObject p) = true from hp]
      simp
    · show JSVal.num (sdkStatus e) = .num s
      rw [sdkStatus, hs]
      rfl

/-- Witness: a Shape A failure with status 400 and the SnapTrade-native
object payload `{ code, detail, raw_error }` is relayed verbatim. -/
theorem c1_preserved_payload_and_status_witness :
    isStructured (.obj [("code", .str "1119"), ("detail", .str "sign the agreement"),
        ("raw_error", .obj [("body", .obj [("error_code", .str "WB401")])])]) = true
    ∧ classify (.obj ⟨some (.str "Request failed"),
        some (.robj (some (.num 400))
          (some (.obj [("code", .str "1119"), ("detail", .str "sign the agreement"),
            ("raw_error", .obj [("body", .obj [("error_code", .str "WB401")])])]))
          none),
        none, none, none, none⟩) = .shapeA
    ∧ (handleSnaptradeError (.obj ⟨some (.str "Request failed"),
        some (.robj (some (.num 400))
          (some (.obj [("code", .str "1119"), ("detail", .str "sign the agreement"),
            ("raw_error", .obj [("body", .obj [("error_code", .str "WB401")])])]))
          none),
        none, none, none, none⟩)).body =
        .obj [("code", .str "1119"), ("detail", .str "sign the agreement"),
          ("raw_error", .obj [("body", .obj [("error_code", .str "WB401")])])]
    ∧ (handleSnaptradeError (.obj ⟨some (.str "Request failed"),
        some (.robj (some (.num 400))
          (some (.obj [("code", .str "1119"), ("detail", .str "sign the agreement"),
            ("raw_error", .obj [("body", .obj [("error_code", .str "WB401")])])]))
          none),
        none, none, none, none⟩)).status = .num 400 :=
  ⟨rfl, rfl,
    c1_preserved_payload_and_status _ 400 _ rfl (Or.inl ⟨rfl, rfl, rfl⟩)⟩

/-- Looking up a name that a conditional header block does not use skips
the block. -/
theorem hdrLookup_headerIf_ne (name n : String) (v : Option String)
    (tl : List (String × String)) (h : name ≠ n) :
    hdrLookup (headerIf name v ++ tl) n = hdrLookup tl n := by
  cases v with
  | none => simp [headerIf]
  | some s =>
    by_cases hs : s = ""
    · simp [headerIf, hs]
    · simp [headerIf, hs, hdrLookup, h]

/-- The final conditional header block of the chain likewise misses other
names. -/
theorem hdrLookup_headerIf_ne_nil (name n : String) (v : Option String) (h : name ≠ n) :
    hdrLookup (headerIf name v) n = none := by
  cases v with
  | none => simp [headerIf, hdrLookup]
  | some s =>
    by_cases hs : s = ""
    · simp [headerIf, hs, hdrLookup]
    · simp [headerIf, hs, hdrLookup, h]

/-- The two request-id headers in `metadataHeaders`: both set with the
identical value when the lookup yields a truthy (non-empty) string, neither
set when it yields nothing or the empty string. -/
theorem metadataHeaders_requestId (hdrs : HeaderCarrier) :
    (∀ v, readHeaderValue hdrs "x-request-id" = some v → v ≠ "" →
      hdrLookup (metadataHeaders hdrs) "X-SnapTrade-Request-ID" = some v ∧
      hdrLookup (metadataHeaders hdrs) "X-Request-ID" = some v)
    ∧ ((readHeaderValue hdrs "x-request-id" = none ∨
        readHeaderValue hdrs "x-request-id" = some "") →
      hdrLookup (metadataHeaders hdrs) "X-SnapTrade-Request-ID" = none ∧
      hdrLookup (metadataHeaders hdrs) "X-Request-ID" = none) := by
  constructor
  · intro v hv hne
    rw [metadataHeaders]
    simp only [hv, hne, if_false, List.cons_append, List.nil_append]
    constructor
    · simp [hdrLookup]
    · rw [hdrLookup]
      rw [if_neg (by decide)]
      simp [hdrLookup]
  · intro hcase
    have hrid :
        (match readHeaderValue hdrs "x-request-id" with
          | some v => if v = "" then [] else
              [("X-SnapTrade-Request-ID", v), ("X-Request-ID", v)]
          | none => ([] : List (String × String))) = [] := by
      rcases hcase with hv | hv <;> simp [hv]
    rw [metadataHeaders]
    simp only [hrid, List.nil_append, List.append_assoc]
    constructor <;>
      rw [hdrLookup_headerIf_ne _ _ _ _ (by decide),
        hdrLookup_headerIf_ne _ _ _ _ (by decide),
        hdrLookup_headerIf_ne _ _ _ _ (by decide),
        hdrLookup_headerIf_ne_nil _ _ _ (by decide)]

/-! ## C6: request-id propagation under both names -/

/-- C6 counterexample: a Shape B failure whose headers carry
`x-request-id` with the empty-string value.  `readHeaderValue` finds the
value (`some ""`), yet the handler sets neither `X-SnapTrade-Request-ID`
nor `X-Request-ID` (it sets no header at all), because the source guards
the pair of `c.header` calls with JavaScript truthiness, which the empty
string fails. -/
theorem c6_counterexample :
    readHeaderValue (.record [("x-request-id", "")]) "x-request-id" = some ""
    ∧ classify (.obj ⟨some (.str "m"), none, some (.num 400), none,
        some (.obj [("code", .str "1")]),
        some (.record [("x-request-id", "")])⟩) = .shapeB
    ∧ (handleSnaptradeError (.obj ⟨some (.str "m"), none, some (.num 400), none,
        some (.obj [("code", .str "1")]),
        some (.record [("x-request-id", "")])⟩)).headersSet = [] :=
  ⟨rfl, rfl, rfl⟩

/-- C6 (amended): on a Shape A or Shape B failure, whenever the request-id
lookup on that shape's headers yields a non-empty value, the handler sets
both `X-SnapTrade-Request-ID` and `X-Request-ID` to that identical value;
when the lookup yields nothing — or the empty string, which JavaScript
truthiness treats as not found — it sets neither. -/
theorem c6_request_id_amended (e : ErrObj) (carrier : HeaderCarrier)
    (hc : (classify (.obj e) = .shapeA ∧ carrier = axiosHeadersC e)
        ∨ (classify (.obj e) = .shapeB ∧ carrier = sdkHeadersC e)) :
    (∀ v, readHeaderValue carrier "x-request-id" = some v → v ≠ "" →
      hdrLookup (handleSnaptradeError (.obj e)).headersSet "X-SnapTrade-Request-ID" = some v ∧
      hdrLookup (handleSnaptradeError (.obj e)).headersSet "X-Request-ID" = some v)
    ∧ ((readHeaderValue carrier "x-request-id" = none ∨
        readHeaderValue carrier "x-request-id" = some "") →
      hdrLookup (handleSnaptradeError (.obj e)).headersSet "X-SnapTrade-Request-ID" = none ∧
      hdrLookup (handleSnaptradeError (.obj e)).headersSet "X-Request-ID" = none) := by
  have hset : (handleSnaptradeError (.obj e)).headersSet = metadataHeaders carrier := by
    rcases hc with ⟨hcl, hcar⟩ | ⟨hcl, hcar⟩
    · rw [handle_shapeA e ((classify_shapeA_iff (.obj e)).mp hcl), hcar]
      rfl
    · obtain ⟨h1, h2⟩ := (classify_shapeB_iff (.obj e)).mp hcl
      rw [handle_shapeB e h1 h2, hcar]
      rfl
  rw [hset]
  exact metadataHeaders_requestId carrier

/-- Witness: a Shape B failure carrying `x-request-id: req-7` gets both
response headers with the value `req-7`. -/
theorem c6_request_id_amended_witness :
    classify (.obj ⟨some (.str "m"), none, some (.num 400), none,
        some (.obj [("code", .str "1")]),
        some (.record [("x-request-id", "req-7")])⟩) = .shapeB
    ∧ hdrLookup (handleSnaptradeError (.obj ⟨some (.str "m"), none, some (.num 400), none,
        some (.obj [("code", .str "1")]),
        some (.record [("x-request-id", "req-7")])⟩)).headersSet
        "X-SnapTrade-Request-ID" = some "req-7"
    ∧ hdrLookup (handleSnaptradeError (.obj ⟨some (.str "m"), none, some (.num 400), none,
        some (.obj [("code", .str "1")]),
        some (.record [("x-request-id", "req-7")])⟩)).headersSet
        "X-Request-ID" = some "req-7" :=
  ⟨rfl,
    (c6_request_id_amended
      ⟨some (.str "m"), none, some (.num 400), none,
        some (.obj [("code", .str "1")]),
        some (.record [("x-request-id", "req-7")])⟩
      (.record [("x-request-id", "req-7")])
      (Or.inr ⟨rfl, rfl⟩)).1 "req-7" rfl (by decide)⟩

/-! ## C7: carrier-shape agreement of `readHeaderValue` -/

/-- C7 counterexample: the same single entry (`x-foo` bound to the empty
string) read through the three carrier shapes.  The get-method and
plain-record shapes return the empty string, but the forEach shape drops it
(the source's `if (match)` truthiness check), so the three shapes do not
return the same value on equivalent underlying data. -/
theorem c7_counterexample :
    readHeaderValue (.getC [("x-foo", "")]) "x-foo" = some ""
    ∧ readHeaderValue (.record [("x-foo", "")]) "x-foo" = some ""
    ∧ readHeaderValue (.forEachC [("x-foo", "")]) "x-foo" = none :=
  ⟨rfl, rfl, rfl⟩

/-- C7 (amended): on equivalent underlying entries, the get-method and
plain-record shapes always agree; the forEach shape agrees with them on
every lookup whose value is a non-empty string, and also on every missing
name, diverging only when the stored value is the empty string (it reports
the header as absent where the other two shapes return `""`).  In every
shape the lookup is case-insensitive: names with the same lowercasing read
the same value. -/
theorem c7_carrier_agreement_amended (entries : List (String × String)) (name : String) :
    (readHeaderValue (.getC entries) name = readHeaderValue (.record entries) name)
    ∧ (∀ v, readHeaderValue (.record entries) name = some v → v ≠ "" →
        readHeaderValue (.forEachC entries) name = some v)
    ∧ (readHeaderValue (.record entries) name = none →
        readHeaderValue (.forEachC entries) name = none)
    ∧ (readHeaderValue (.record entries) name = some "" →
        readHeaderValue (.forEachC entries) name = none)
    ∧ (∀ m, lowerStr m = lowerStr name →
        readHeaderValue (.getC entries) m = readHeaderValue (.getC entries) name ∧
        readHeaderValue (.forEachC entries) m = readHeaderValue (.forEachC entries) name ∧
        readHeaderValue (.record entries) m = readHeaderValue (.record entries) name) := by
  refine ⟨rfl, ?_, ?_, ?_, ?_⟩
  · intro v hv hne
    simp only [readHeaderValue.eq_def] at hv ⊢
    rw [hv]
    simp [hne]
  · intro hv
    simp only [readHeaderValue.eq_def] at hv ⊢
    rw [hv]
  · intro hv
    simp only [readHeaderValue.eq_def] at hv ⊢
    rw [hv]
    simp
  · intro m hm
    refine ⟨?_, ?_, ?_⟩ <;> simp only [readHeaderValue.eq_def, hm]

/-- Witness: the entry `X-Req: val` is found through the forEach shape
under the differently-cased name `x-REQ`, matching the record shape. -/
theorem c7_carrier_agreement_amended_witness :
    readHeaderValue (.record [("X-Req", "val")]) "x-req" = some "val"
    ∧ readHeaderValue (.forEachC [("X-Req", "val")]) "x-req" = some "val"
    ∧ readHeaderValue (.getC [("X-Req", "val")]) "x-REQ" =
        readHeaderValue (.getC [("X-Req", "val")]) "x-req" :=
  ⟨rfl,
    (c7_carrier_agreement_amended [("X-Req", "val")] "x-req").2.1 "val" rfl (by decide),
    ((c7_carrier_agreement_amended [("X-Req", "val")] "x-req").2.2.2.2 "x-REQ" rfl).1⟩

/-! ## Parser lemmas for C4 -/

/-- After dropping leading whitespace, the head (if any) is not whitespace. -/
theorem skipWs_head_not_ws (l : List Char) :
    match skipWs l with
    | [] => True
    | c :: _ => jsWs c = false := by
  induction l with
  | nil => simp [skipWs]
  | cons c t ih =>
    by_cases h : jsWs c
    · simpa [skipWs, List.dropWhile_cons, h] using ih
    · simp [skipWs, List.dropWhile_cons, h]

/-- `trimRight` never changes the head of a nonempty result. -/
theorem trimRight_head (c : Char) (l : List Char) :
    trimRight (c :: l) = [] ∨ ∃ r, trimRight (c :: l) = c :: r := by
  rw [trimRight]
  rcases h : trimRight l with _ | ⟨d, t⟩
  · by_cases hw : jsWs c
    · left; simp [hw]
    · right; exact ⟨[], by simp [hw]⟩
  · right; exact ⟨d :: t, rfl⟩

/-- A list whose head is not whitespace is unchanged by `skipWs`. -/
theorem skipWs_of_head_not_ws (l : List Char)
    (h : match l with | [] => True | c :: _ => jsWs c = false) :
    skipWs l = l := by
  cases l with
  | nil => rfl
  | cons c t => simp only at h; simp [skipWs, List.dropWhile_cons, h]

/-- A trimmed string has no leading whitespace left to skip. -/
theorem skipWs_jsTrim (s : String) : skipWs (jsTrim s).data = (jsTrim s).data := by
  show skipWs (trimRight (skipWs s.data)) = trimRight (skipWs s.data)
  have h1 := skipWs_head_not_ws s.data
  rcases hcs : skipWs s.data with _ | ⟨c, t⟩
  · rfl
  · rw [hcs] at h1
    simp only at h1
    rcases trimRight_head c t with h2 | ⟨r, h2⟩
    · rw [h2]; rfl
    · rw [h2]
      exact skipWs_of_head_not_ws (c :: r) (by simpa using h1)

/-- A value parsed from input that does not start with a brace or bracket
is not structured: every other dispatch branch of `parseVal` produces a
string, boolean, null, or number. -/
theorem parseVal_not_structured (f : Nat) (c : Char) (rest : List Char)
    (h1 : ¬ c = '\x7b') (h2 : ¬ c = '[') (v : JSVal) (r : List Char)
    (h : parseVal f (c :: rest) = some (v, r)) : isStructured v = false := by
  cases f with
  | zero =>
    rw [parseVal.eq_def] at h
    exact absurd h (by simp)
  | succ f =>
    rw [parseVal.eq_def] at h
    simp only [if_neg h1, if_neg h2] at h
    by_cases h3 : c = '"'
    · rw [if_pos h3] at h
      rcases hj : parseJString (rest.length + 1) rest with _ | ⟨s', r'⟩ <;> rw [hj] at h
      · exact absurd h (by simp)
      · simp only [Option.map_some', Option.some.injEq, Prod.mk.injEq] at h
        rw [← h.1]
        simp [isStructured, typeofObject]
    · rw [if_neg h3] at h
      by_cases h4 : c = 't'
      · rw [if_pos h4] at h
        split at h
        · simp only [Option.some.injEq, Prod.mk.injEq] at h
          rw [← h.1]
          simp [isStructured, typeofObject]
        · exact absurd h (by simp)
      · rw [if_neg h4] at h
        by_cases h5 : c = 'f'
        · rw [if_pos h5] at h
          split at h
          · simp only [Option.some.injEq, Prod.mk.injEq] at h
            rw [← h.1]
            simp [isStructured, typeofObject]
          · exact absurd h (by simp)
        · rw [if_neg h5] at h
          by_cases h6 : c = 'n'
          · rw [if_pos h6] at h
            split at h
            · simp only [Option.some.injEq, Prod.mk.injEq] at h
              rw [← h.1]
              simp [isStructured, jsTruthy, typeofObject]
            · exact absurd h (by simp)
          · rw [if_neg h6] at h
            by_cases h7 : c = '-' ∨ c.isDigit
            · rw [if_pos h7] at h
              rcases hn : parseNumber (c :: rest) with _ | ⟨q, r'⟩ <;> rw [hn] at h
              · exact absurd h (by simp)
              · simp only [Option.map_some', Option.some.injEq, Prod.mk.injEq] at h
                rw [← h.1]
                simp [isStructured, typeofObject]
            · rw [if_neg h7] at h
              exact absurd h (by simp)

/-- A whitespace-free string that parses to a structured JSON value starts
with a brace or a bracket. -/
theorem jsonParse_structured_head (t : String) (v : JSVal)
    (hp : jsonParse t = some v) (hs : isStructured v = true)
    (hnw : skipWs t.data = t.data) :
    (jsStartsWith t '\x7b' || jsStartsWith t '[') = true := by
  rw [jsonParse, hnw] at hp
  rcases htd : t.data with _ | ⟨c, rest⟩
  · rw [htd] at hp; simp [parseVal] at hp
  · rw [htd] at hp
    rcases hpv : parseVal (t.length + 1) (c :: rest) with _ | ⟨v', r⟩
    · rw [hpv] at hp; exact absurd hp (by simp)
    · rw [hpv] at hp
      have hp' : (if skipWs r = [] then some v' else none) = some v := hp
      have hvv : v' = v := by
        by_cases hr : skipWs r = []
        · rw [if_pos hr] at hp'; exact Option.some.inj hp'
        · rw [if_neg hr] at hp'; exact absurd hp' (by simp)
      by_cases hc1 : c = '\x7b'
      · simp [jsStartsWith, htd, hc1]
      · by_cases hc2 : c = '['
        · simp [jsStartsWith, htd, hc2]
        · exfalso
          have hns := parseVal_not_structured _ c rest hc1 hc2 v' r hpv
          rw [hvv] at hns
          rw [hns] at hs
          exact Bool.noConfusion hs

/-- The string-payload body: the parsed value when the (trimmed) string
parses to a truthy structured JSON value, the `{code, detail}` fallback
with the original string otherwise. -/
theorem stringBody_cases (s : String) :
    (∀ v, jsonParse (jsTrim s) = some v → isStructured v = true → stringBody s = v)
    ∧ ((∀ v, jsonParse (jsTrim s) = some v → isStructured v = false) →
      stringBody s = .obj [("code", .str "SNAPTRADE_ERROR"), ("detail", .str s)]) := by
  constructor
  · intro v hv hsv
    have hhead := jsonParse_structured_head (jsTrim s) v hv hsv (skipWs_jsTrim s)
    rw [stringBody]
    simp only [hhead, if_true, hv]
    have : (jsTruthy v && typeofObject v) = true := hsv
    simp [this]
  · intro hall
    rw [stringBody]
    rcases hcond : (jsStartsWith (jsTrim s) '\x7b' || jsStartsWith (jsTrim s) '[') with _ | _
    · simp [hcond, snaptradeFallback]
    · simp only [hcond, if_true]
      rcases hp : jsonParse (jsTrim s) with _ | p
      · simp [hp, snaptradeFallback]
      · have hfp : (jsTruthy p && typeofObject p) = false := hall p hp
        simp [hp, hfp, snaptradeFallback]

/-- A string payload is never a truthy object, so both branches route it
through `stringBody`. -/
theorem payloadBody_str (s : String) (m : JSVal) :
    payloadBody (.str s) m = stringBody s := by
  simp [payloadBody, typeofObject]

/-- An absent (`undefined`) payload falls back to
`{code, detail: error.message}`. -/
theorem payloadBody_undef (m : JSVal) :
    payloadBody .undefined m = snaptradeFallback m := by
  simp [payloadBody, jsTruthy]

/-! ## C4: string payloads and missing payloads -/

/-- C4: on a Shape A or Shape B failure whose payload field is the string
`s`: when `s` parses as JSON (surrounding whitespace ignored, as
`JSON.parse` does) to a structured value, the response body is exactly that
parsed value; when it does not parse to a structured value, the body is the
two-field fallback `{ code: "SNAPTRADE_ERROR", detail: s }` carrying the
exact original string.  When the failure has no payload at all
(`response?.data` reads as `undefined` in Shape A; no `responseBody` field
in Shape B), the body is the same fallback with the failure's message text
as the detail. -/
theorem c4_string_payload (e : ErrObj) (s : String) :
    (classify (.obj e) = .shapeA →
      (axiosDataVal e = .str s →
        (∀ v, jsonParse (jsTrim s) = some v → isStructured v = true →
          (handleSnaptradeError (.obj e)).body = v) ∧
        ((∀ v, jsonParse (jsTrim s) = some v → isStructured v = false) →
          (handleSnaptradeError (.obj e)).body =
            .obj [("code", .str "SNAPTRADE_ERROR"), ("detail", .str s)])) ∧
      (axiosDataVal e = .undefined → ∀ m, e.message = some (.str m) →
        (handleSnaptradeError (.obj e)).body =
          .obj [("code", .str "SNAPTRADE_ERROR"), ("detail", .str m)]))
    ∧ (classify (.obj e) = .shapeB →
      (jsGet e.responseBody = .str s →
        (∀ v, jsonParse (jsTrim s) = some v → isStructured v = true →
          (handleSnaptradeError (.obj e)).body = v) ∧
        ((∀ v, jsonParse (jsTrim s) = some v → isStructured v = false) →
          (handleSnaptradeError (.obj e)).body =
            .obj [("code", .str "SNAPTRADE_ERROR"), ("detail", .str s)])) ∧
      (e.responseBody = none → ∀ m, e.message = some (.str m) →
        (handleSnaptradeError (.obj e)).body =
          .obj [("code", .str "SNAPTRADE_ERROR"), ("detail", .str m)])) := by
  constructor
  · intro hA
    have hbody : (handleSnaptradeError (.obj e)).body =
        payloadBody (axiosDataVal e) (jsGet e.message) := by
      rw [handle_shapeA e ((classify_shapeA_iff (.obj e)).mp hA)]
      rfl
    constructor
    · intro hd
      rw [hbody, hd, payloadBody_str]
      constructor
      · intro v hv hs
        exact (stringBody_cases s).1 v hv hs
      · intro hall
        exact (stringBody_cases s).2 hall
    · intro hd m hm
      rw [hbody, hd, payloadBody_undef, hm]
      rfl
  · intro hB
    obtain ⟨h1, h2⟩ := (classify_shapeB_iff (.obj e)).mp hB
    have hbody : (handleSnaptradeError (.obj e)).body =
        payloadBody (jsGet e.responseBody) (jsGet e.message) := by
      rw [handle_shapeB e h1 h2]
      rfl
    constructor
    · intro hd
      rw [hbody, hd, payloadBody_str]
      constructor
      · intro v hv hs
        exact (stringBody_cases s).1 v hv hs
      · intro hall
        exact (stringBody_cases s).2 hall
    · intro hd m hm
      rw [hbody, hd, hm]
      rfl

/-- Witness: a Shape B failure whose `responseBody` is the JSON text
`{"code":"1119","detail":"d"}` (with surrounding spaces) responds with the
parsed object, not the string. -/
theorem c4_string_payload_witness :
    classify (.obj ⟨some (.str "m"), none, some (.num 400), none,
        some (.str " \x7b\"code\":\"1119\",\"detail\":\"d\"\x7d "), none⟩) = .shapeB
    ∧ jsGet (some (JSVal.str " \x7b\"code\":\"1119\",\"detail\":\"d\"\x7d ")) =
        .str " \x7b\"code\":\"1119\",\"detail\":\"d\"\x7d "
    ∧ jsonParse (jsTrim " \x7b\"code\":\"1119\",\"detail\":\"d\"\x7d ") =
        some (.obj [("code", .str "1119"), ("detail", .str "d")])
    ∧ isStructured (.obj [("code", .str "1119"), ("detail", .str "d")]) = true
    ∧ (handleSnaptradeError (.obj ⟨some (.str "m"), none, some (.num 400), none,
        some (.str " \x7b\"code\":\"1119\",\"detail\":\"d\"\x7d "), none⟩)).body =
        .obj [("code", .str "1119"), ("detail", .str "d")] :=
  ⟨rfl, rfl, rfl, rfl,
    (((c4_string_payload
        ⟨some (.str "m"), none, some (.num 400), none,
          some (.str " \x7b\"code\":\"1119\",\"detail\":\"d\"\x7d "), none⟩
        " \x7b\"code\":\"1119\",\"detail\":\"d\"\x7d ").2 rfl).1 rfl).1
      (.obj [("code", .str "1119"), ("detail", .str "d")]) rfl rfl⟩
